import Mathlib

/-!
Shallow embedding of the research-portal backend (an Express/Supabase
REST service) and verification of its specification claims.

The repository contains several iterations of the same backend:
  - `src/server.js`            (self-issued JWT verifier, sub-claim principal)
  - `src/unnamed/part_000`     (two concatenated iterations)
  - `src/unnamed/part_001`     (store-lookup login, id-claim principal)
  - `src/unnamed/part_002`     (delegated Supabase verifier, multer upload)

Modelling conventions:
  - JavaScript strings that the code computes on (headers, descriptions,
    file names) are modelled as `List Char`; strings that are only
    compared for equality (ids, emails, MIME types, messages) stay `String`.
  - External collaborators (relational store, blob store, identity
    provider) are modelled as explicit oracle values passed to each
    handler; every call a handler makes is recorded in an `Effect` list.
  - ISO-8601 `created_at` timestamps are modelled as integer epoch
    seconds: lexicographic order on valid ISO strings equals numeric
    order on the instants they denote, so `gte`/`lt` string filters
    become integer comparisons.
  - Machine responses are `status` plus the JSON `message` field when the
    body is a simple message object (`none` for other bodies, e.g. the
    HTML page produced by the framework's default error handler).
-/

/-! ## JavaScript string primitives (over `List Char`) -/

/-- A JavaScript string, modelled as its list of characters. -/
abbrev JStr := List Char

/-- Accumulator worker for `jsSplit`. -/
def jsSplitAux (sep : Char) : JStr → JStr → List JStr
  | [], acc => [acc.reverse]
  | c :: cs, acc =>
    if c = sep then acc.reverse :: jsSplitAux sep cs []
    else jsSplitAux sep cs (c :: acc)

/-- JavaScript `String.prototype.split` with a one-character separator
(`s.split(" ")` in the source). -/
def jsSplit (sep : Char) (s : JStr) : List JStr :=
  jsSplitAux sep s []

/-- JavaScript `String.prototype.startsWith`. -/
def jsStartsWith : JStr → JStr → Bool
  | _, [] => true
  | [], _ :: _ => false
  | c :: cs, p :: ps => c = p && jsStartsWith cs ps

/-- Whitespace characters stripped by `String.prototype.trim` (the
white-space classes that occur in JSON request bodies). -/
def jsIsSpace (c : Char) : Bool :=
  c = ' ' || c = '\t' || c = '\n' || c = '\r'

/-- JavaScript `String.prototype.trim`. -/
def jsTrim (s : JStr) : JStr :=
  ((s.dropWhile jsIsSpace).reverse.dropWhile jsIsSpace).reverse

/-- JavaScript `String.prototype.toLowerCase` (ASCII, as used on file
extensions). -/
def jsToLower (s : JStr) : JStr :=
  s.map Char.toLower

/-- Node's `path.extname`: the suffix from the final dot, or the empty
string when there is no dot or the only dot starts the name. -/
def jsExtname (s : JStr) : JStr :=
  let afterDotRev := s.reverse.takeWhile (fun c => c ≠ '.')
  if afterDotRev.length = s.length then []
  else if afterDotRev.length + 1 = s.length then []
  else '.' :: afterDotRev.reverse

/-- Truthiness test for an optional string request field: JavaScript
`!x` is true when the field is absent or the empty string. -/
def jsFalsy (o : Option JStr) : Bool :=
  match o with
  | none => true
  | some s => s = []

/-- Truthiness test for an optional opaque string field. -/
def jsFalsyS (o : Option String) : Bool :=
  match o with
  | none => true
  | some s => s = ""

/-- JavaScript `x || null` on an optional string field: an absent or
empty string becomes null. -/
def jsOrNull (o : Option String) : Option String :=
  match o with
  | none => none
  | some s => if s = "" then none else some s

/-! ## Responses, effects and store rows -/

/-- An HTTP response: status code plus the JSON `message` field when the
body is a message object (`none` for other body shapes). -/
structure Response where
  status : Nat
  message : Option String
deriving DecidableEq

/-- Store collections named in the source. -/
inductive Table where
  | profiles
  | research
  | logs
deriving DecidableEq

/-- A research row as sent to the store by an insert. -/
structure ResearchRow where
  description : JStr
  file_url : Option String
  user_id : Option String
deriving DecidableEq

/-- One call made to an external collaborator while a handler ran. -/
inductive Effect where
  | storeSelect (t : Table)
  | insertResearch (r : ResearchRow)
  | insertLog (user_id : Option String) (action : JStr)
  | storagePut (bucket : String) (objectKey : JStr)
  | storageGetPublicUrl (bucket : String) (objectKey : JStr)
  | authGetUser (token : JStr)
deriving DecidableEq

/-- Whether an external call mutates the store or the blob service
(row insert or storage object write). -/
def Effect.isWriteOp : Effect → Bool
  | .insertResearch _ => true
  | .insertLog _ _ => true
  | .storagePut _ _ => true
  | _ => false

/-! ## Self-issued tokens (the `jsonwebtoken` sign/verify pair) -/

/-- The claim set carried by a JWT; absent claims are `none`. -/
structure JwtPayload where
  sub : Option String
  id : Option String
  email : Option String
  name : Option String
deriving DecidableEq

/-- A signed token: its payload, the secret it was signed with, and its
expiry instant. -/
structure Jwt where
  payload : JwtPayload
  secret : String
  exp : Int
deriving DecidableEq

/-- The `jwt.sign(payload, secret, expiresIn)` call at time `now`. -/
def jwtSign (p : JwtPayload) (secret : String) (now expiresIn : Int) : Jwt :=
  { payload := p, secret := secret, exp := now + expiresIn }

/-- The `jwt.verify(token, secret)` call at time `now`: the payload when
the secret matches and the token has not expired, otherwise a thrown
error (modelled as `none`). -/
def jwtVerify (t : Jwt) (secret : String) (now : Int) : Option JwtPayload :=
  if t.secret = secret ∧ now < t.exp then some t.payload else none

/-! ## The Identity Verifier (`verifyAuth` middleware variants) -/

/-- The authenticated principal attached to `req.user`. -/
structure Principal where
  id : Option String
  email : Option String
  name : Option String
deriving DecidableEq

/-- Outcome of the `verifyAuth` middleware: either the request proceeds
with a principal, or it is rejected with a response. -/
inductive AuthResult where
  | ok (user : Principal)
  | reject (resp : Response)
deriving DecidableEq

/-- The literal string `"Bearer "` tested by `authHeader.startsWith`. -/
def bearerLit : JStr := ['B', 'e', 'a', 'r', 'e', 'r', ' ']

/-- The header-parsing stage shared by every `verifyAuth` variant:
reject unless the header is present and starts with `"Bearer "`, then
take `authHeader.split(" ")[1]` as the raw token. -/
def bearerCheck (h : Option JStr) : Option JStr :=
  match h with
  | none => none
  | some s =>
    if jsStartsWith s bearerLit then some ((jsSplit ' ' s).getD 1 [])
    else none

/-- The `verifyAuth` middleware of `src/server.js`: local JWT
verification; `req.user` is built as the object literal with `id` set to
`decoded.sub` and then all of `decoded` spread over it, so a present
`id` claim overrides the `sub` claim. `dec` maps a raw token string to
the structured token it encodes (`none` for strings `jwt.verify`
rejects as malformed). -/
def verifyAuthSjs (dec : JStr → Option Jwt) (secret : String) (now : Int)
    (h : Option JStr) : AuthResult × List Effect :=
  match bearerCheck h with
  | none => (.reject ⟨401, some "Authorization header missing or invalid"⟩, [])
  | some tok =>
    match dec tok with
    | none => (.reject ⟨401, some "Invalid or expired token"⟩, [])
    | some t =>
      match jwtVerify t secret now with
      | none => (.reject ⟨401, some "Invalid or expired token"⟩, [])
      | some p =>
        (.ok { id := (match p.id with | some v => some v | none => p.sub),
               email := p.email, name := p.name }, [])

/-- The `verifyAuth` middleware of `src/unnamed/part_001` (and the first
iteration in `part_000`): local JWT verification with `req.user` set to
the decoded payload itself, so the principal id is the `id` claim. -/
def verifyAuthP001 (dec : JStr → Option Jwt) (secret : String) (now : Int)
    (h : Option JStr) : AuthResult × List Effect :=
  match bearerCheck h with
  | none => (.reject ⟨401, some "Authorization header missing or invalid"⟩, [])
  | some tok =>
    match dec tok with
    | none => (.reject ⟨401, some "Invalid or expired token"⟩, [])
    | some t =>
      match jwtVerify t secret now with
      | none => (.reject ⟨401, some "Invalid or expired token"⟩, [])
      | some p => (.ok { id := p.id, email := p.email, name := p.name }, [])

/-- Answer of `supabase.auth.getUser(token)` in the delegated verifier:
the call may throw, fail (error or missing user), or return a user. -/
inductive ProviderUserAnswer where
  | threw
  | failed
  | user (u : Principal)
deriving DecidableEq

/-- The `verifyAuth` middleware of `src/unnamed/part_002`: the raw token
is forwarded to the identity provider (`supabase.auth.getUser`), which
is an external call recorded in the effect list. -/
def verifyAuthP002 (provider : JStr → ProviderUserAnswer)
    (h : Option JStr) : AuthResult × List Effect :=
  match bearerCheck h with
  | none => (.reject ⟨401, some "Authorization header missing or invalid"⟩, [])
  | some tok =>
    match provider tok with
    | .threw => (.reject ⟨401, some "Token verification failed"⟩, [.authGetUser tok])
    | .failed => (.reject ⟨401, some "Invalid or expired token"⟩, [.authGetUser tok])
    | .user u => (.ok u, [.authGetUser tok])

/-! ## Claim C1: malformed Authorization headers -/

/-- The well-formedness predicate stated by the claim: the header is the
literal prefix `"Bearer "` followed by a non-empty token. -/
def claimWellFormedHeader (h : Option JStr) : Bool :=
  match h with
  | none => false
  | some s => jsStartsWith s bearerLit && decide (bearerLit.length < s.length)

/-- The prefix test the code actually performs. -/
def codePrefixCheck (h : Option JStr) : Bool :=
  match h with
  | none => false
  | some s => jsStartsWith s bearerLit

/-- C1, counterexample: the header `"Bearer "` (prefix with an empty
token) is not well formed in the claim's sense, yet the self-issued
verifier rejects it with the message `"Invalid or expired token"` rather
than `"Authorization header missing or invalid"`, and the delegated
verifier forwards the empty token to the identity provider, making an
external call. -/
theorem c1_counterexample :
    claimWellFormedHeader (some bearerLit) = false ∧
    (verifyAuthSjs (fun _ => none) "secret" 0 (some bearerLit)).1 =
      .reject ⟨401, some "Invalid or expired token"⟩ ∧
    (verifyAuthP002 (fun _ => .failed) (some bearerLit)).2 =
      [.authGetUser []] := by
  decide

/-- C1, amended: for every request whose Authorization header is missing
or does not start with the literal prefix `"Bearer "`, each of the three
`verifyAuth` variants responds 401 with body message
`"Authorization header missing or invalid"` and makes no external call.
(A header consisting of `"Bearer "` followed by an empty token passes
the code's prefix check and instead reaches token verification.) -/
theorem c1_malformed_header (h : Option JStr)
    (hb : codePrefixCheck h = false) :
    (∀ (dec : JStr → Option Jwt) (secret : String) (now : Int),
      verifyAuthSjs dec secret now h =
        (.reject ⟨401, some "Authorization header missing or invalid"⟩, []) ∧
      verifyAuthP001 dec secret now h =
        (.reject ⟨401, some "Authorization header missing or invalid"⟩, [])) ∧
    (∀ provider : JStr → ProviderUserAnswer,
      verifyAuthP002 provider h =
        (.reject ⟨401, some "Authorization header missing or invalid"⟩, [])) := by
  have hc : bearerCheck h = none := by
    cases h with
    | none => rfl
    | some s =>
      simp only [codePrefixCheck] at hb
      simp [bearerCheck, hb]
  refine ⟨fun dec secret now => ⟨?_, ?_⟩, fun provider => ?_⟩ <;>
    simp [verifyAuthSjs, verifyAuthP001, verifyAuthP002, hc]

/-- C1, witness: the amended theorem applied to the concrete header
`"bearer x"` (lower-case prefix, hence malformed). -/
theorem c1_witness :
    codePrefixCheck (some ['b', 'e', 'a', 'r', 'e', 'r', ' ', 'x']) = false ∧
    verifyAuthSjs (fun _ => none) "secret" 0
        (some ['b', 'e', 'a', 'r', 'e', 'r', ' ', 'x']) =
      (.reject ⟨401, some "Authorization header missing or invalid"⟩, []) ∧
    verifyAuthP002 (fun _ => .failed)
        (some ['b', 'e', 'a', 'r', 'e', 'r', ' ', 'x']) =
      (.reject ⟨401, some "Authorization header missing or invalid"⟩, []) := by
  refine ⟨by decide, ?_, ?_⟩
  · exact ((c1_malformed_header (some ['b', 'e', 'a', 'r', 'e', 'r', ' ', 'x'])
      (by decide)).1 (fun _ => none) "secret" 0).1
  · exact (c1_malformed_header (some ['b', 'e', 'a', 'r', 'e', 'r', ' ', 'x'])
      (by decide)).2 (fun _ => .failed)

/-! ## The Login Handler -/

/-- The request body of `POST /api/login`. -/
structure LoginBody where
  email : Option String
  password : Option String
deriving DecidableEq

/-- Answer of the profile lookup
`supabase.from("profiles").select(...).eq("email", email).single()` in
the store-lookup login flow, kept abstract: a store error, no matching
row, or the matching row's columns. -/
inductive LookupAnswer where
  | err (msg : String)
  | notFound
  | found (id email name password : String)
deriving DecidableEq

/-- Outcome of a login attempt in the self-issued-token flow: either a
plain response, or 200 with the freshly signed access token. -/
inductive LoginOutcome where
  | resp (r : Response)
  | token (t : Jwt)
deriving DecidableEq

/-- The `POST /api/login` handler of `src/unnamed/part_001`
(store-lookup flow): look the profile up by email, compare the stored
password literally, and on match mint a 12-hour self-issued token
carrying the `id`, `email` and `name` claims. -/
def loginP001 (lookup : String → LookupAnswer) (secret : String) (now : Int)
    (b : LoginBody) : LoginOutcome :=
  if jsFalsyS b.email || jsFalsyS b.password then
    .resp ⟨400, some "Email and password required"⟩
  else
    match lookup (b.email.getD "") with
    | .err _ => .resp ⟨500, some "Database error"⟩
    | .notFound => .resp ⟨401, some "Invalid credentials"⟩
    | .found uid uemail uname upassword =>
      if upassword = b.password.getD "" then
        .token (jwtSign ⟨none, some uid, some uemail, some uname⟩ secret now 43200)
      else .resp ⟨401, some "Invalid credentials"⟩

/-- Answer of the provider's password-grant endpoint in the provider
login flow: the `fetch` either throws, or yields an HTTP response with
a status code and an optional `access_token` and `user` in its JSON
body. -/
inductive ProviderLoginAnswer where
  | threw
  | httpResp (status : Nat) (access_token : Option String) (user : Option Principal)
deriving DecidableEq

/-- The `ok` flag of a `fetch` response: status in the 2xx range. -/
def respOk (status : Nat) : Bool :=
  decide (200 ≤ status) && decide (status < 300)

/-- The `POST /api/login` handler of `src/server.js` (provider flow):
forward the credentials to the provider's password sign-in endpoint; a
thrown fetch is caught as 500, every non-ok response and every ok
response lacking `access_token` or `user` becomes 401. -/
def loginSjs (provider : ProviderLoginAnswer) (b : LoginBody) : Response :=
  if jsFalsyS b.email || jsFalsyS b.password then
    ⟨400, some "Email and password required"⟩
  else
    match provider with
    | .threw => ⟨500, some "Internal server error"⟩
    | .httpResp status tk u =>
      if !respOk status then ⟨401, some "Invalid credentials"⟩
      else if jsFalsyS tk || u.isNone then ⟨401, some "Invalid credentials"⟩
      else ⟨200, none⟩

/-! ## Research Create Handlers -/

/-- The request body of `POST /api/research`; `user_id` is sometimes
supplied by clients but never read by the handlers. -/
structure ResearchBody where
  description : Option JStr
  file_url : Option String
  user_id : Option String
deriving DecidableEq

/-- Answer of a store insert: an error or success. -/
inductive InsertAnswer where
  | err (msg : String)
  | ok
deriving DecidableEq

/-- The `POST /api/research` handler of `src/server.js`: description
required and non-empty after trimming; `file_url` is always null; the
inserted `user_id` is `req.user.id`. -/
def researchCreateSjs (ins : InsertAnswer) (user : Principal)
    (b : ResearchBody) : Response × List Effect :=
  if jsFalsy b.description || jsTrim (b.description.getD []) = [] then
    (⟨400, some "Description is required"⟩, [])
  else
    let row : ResearchRow := ⟨b.description.getD [], none, user.id⟩
    match ins with
    | .err m => (⟨500, some m⟩, [.insertResearch row])
    | .ok => (⟨201, some "Upload successful"⟩, [.insertResearch row])

/-- The `POST /api/research` handler of `src/unnamed/part_001` (same in
`part_000` and `part_002`): only the falsy check on the description, no
trim; `file_url` is the body field or null; the inserted `user_id` is
`req.user.id`. -/
def researchCreateP001 (ins : InsertAnswer) (user : Principal)
    (b : ResearchBody) : Response × List Effect :=
  if jsFalsy b.description then
    (⟨400, some "Description is required"⟩, [])
  else
    let row : ResearchRow := ⟨b.description.getD [], jsOrNull b.file_url, user.id⟩
    match ins with
    | .err m => (⟨500, some m⟩, [.insertResearch row])
    | .ok => (⟨201, none⟩, [.insertResearch row])

/-! ## Claim C2: inserted user_id always comes from the principal -/

/-- Whether every research row inserted during a run is attributed to
the given principal id. -/
def insertsAttributedTo (uid : Option String) (effs : List Effect) : Bool :=
  effs.all (fun e =>
    match e with
    | .insertResearch r => r.user_id == uid
    | _ => true)

/-- C2: for every authenticated `POST /api/research` request (either
variant), every inserted research row carries the authenticated
principal's id as `user_id`, and the handler's entire outcome is
unchanged when only the body-supplied `user_id` field differs — so two
requests identical except for a body `user_id` insert rows with the
same `user_id`. -/
theorem c2_user_id_from_principal (ins : InsertAnswer) (user : Principal)
    (b : ResearchBody) (x y : Option String) :
    insertsAttributedTo user.id (researchCreateSjs ins user b).2 = true ∧
    insertsAttributedTo user.id (researchCreateP001 ins user b).2 = true ∧
    researchCreateSjs ins user { b with user_id := x } =
      researchCreateSjs ins user { b with user_id := y } ∧
    researchCreateP001 ins user { b with user_id := x } =
      researchCreateP001 ins user { b with user_id := y } := by
  refine ⟨?_, ?_, rfl, rfl⟩
  · unfold researchCreateSjs
    split
    · rfl
    · cases ins <;> simp [insertsAttributedTo]
  · unfold researchCreateP001
    split
    · rfl
    · cases ins <;> simp [insertsAttributedTo]

/-! ## Claim C9: description validation on research create -/

/-- C9, counterexample: in the `part_001` handler (same check in
`part_000` and `part_002`), a description consisting of a single space
is truthy and there is no trim check, so the request is accepted: the
response is 201 and a research row with the whitespace description is
inserted — contradicting the claimed 400-and-no-insert. -/
theorem c9_counterexample :
    researchCreateP001 .ok ⟨some "u1", some "a@x.com", some "Alice"⟩
        ⟨some [' '], none, none⟩ =
      (⟨201, none⟩, [.insertResearch ⟨[' '], none, some "u1"⟩]) := by
  decide

/-- C9, amended: the `server.js` handler rejects every request whose
description is missing, empty, or whitespace-only after trimming with
400 and no insert; the `part_000`, `part_001` and `part_002` handlers
reject only a missing or empty (falsy) description with 400 and no
insert, and accept a non-empty whitespace-only description, inserting
the row. -/
theorem c9_description_validation (ins : InsertAnswer) (user : Principal) (b : ResearchBody) :
    (jsTrim (b.description.getD []) = [] →
      researchCreateSjs ins user b = (⟨400, some "Description is required"⟩, [])) ∧
    (jsFalsy b.description = true →
      researchCreateP001 ins user b = (⟨400, some "Description is required"⟩, [])) ∧
    (jsFalsy b.description = false →
      researchCreateP001 InsertAnswer.ok user b =
        (⟨201, none⟩,
         [.insertResearch ⟨b.description.getD [], jsOrNull b.file_url, user.id⟩])) := by
  refine ⟨fun h => ?_, fun h => ?_, fun h => ?_⟩
  · simp [researchCreateSjs, h]
  · simp [researchCreateP001, h]
  · simp [researchCreateP001, h]

/-- C9, witness: the amended theorem applied to a whitespace-only
description (rejected by `server.js`, accepted and inserted by
`part_001`) and to a missing description (rejected by both). -/
theorem c9_witness :
    researchCreateSjs .ok ⟨some "u1", none, none⟩ ⟨some [' '], none, none⟩ =
      (⟨400, some "Description is required"⟩, []) ∧
    researchCreateP001 .ok ⟨some "u1", none, none⟩ ⟨none, none, none⟩ =
      (⟨400, some "Description is required"⟩, []) ∧
    researchCreateP001 .ok ⟨some "u1", none, none⟩ ⟨some [' '], none, none⟩ =
      (⟨201, none⟩, [.insertResearch ⟨[' '], none, some "u1"⟩]) := by
  refine ⟨?_, ?_, ?_⟩
  · exact (c9_description_validation .ok ⟨some "u1", none, none⟩ ⟨some [' '], none, none⟩).1 (by decide)
  · exact (c9_description_validation .ok ⟨some "u1", none, none⟩ ⟨none, none, none⟩).2.1 (by decide)
  · exact (c9_description_validation .ok ⟨some "u1", none, none⟩ ⟨some [' '], none, none⟩).2.2 (by decide)

/-! ## Claim C6: login failure classes -/

/-- C6, counterexample: in the provider flow of `src/server.js`, a
provider-side failure that surfaces as a non-ok HTTP response — here a
503 from the identity provider — is answered with 401
`"Invalid credentials"` rather than a 500 backend error: the
provider-error class and the bad-credentials class are conflated. -/
theorem c6_counterexample :
    loginSjs (.httpResp 503 none none) ⟨some "a@x.com", some "pw"⟩ =
      ⟨401, some "Invalid credentials"⟩ := by
  decide

/-- C6, amended: in the store-lookup flow (`part_001`) the two failure
classes are indeed distinguished — a store error yields 500
`"Database error"` while a missing account or a password mismatch
yields the generic 401 `"Invalid credentials"`; in the provider flow
(`server.js`) only a thrown fetch yields 500, and every non-ok provider
response — bad credentials and provider-side errors alike — yields 401
`"Invalid credentials"`. -/
theorem c6_login_failure_classes (lookup : String → LookupAnswer) (secret : String)
    (now : Int) (b : LoginBody) (e p : String) (m : String)
    (st : Nat) (tk : Option String) (u : Option Principal)
    (hbe : b.email = some e) (he : e ≠ "")
    (hbp : b.password = some p) (hp : p ≠ "") :
    (lookup e = .err m →
      loginP001 lookup secret now b = .resp ⟨500, some "Database error"⟩) ∧
    (lookup e = .notFound →
      loginP001 lookup secret now b = .resp ⟨401, some "Invalid credentials"⟩) ∧
    (∀ uid uem unm upw, lookup e = .found uid uem unm upw → upw ≠ p →
      loginP001 lookup secret now b = .resp ⟨401, some "Invalid credentials"⟩) ∧
    (loginSjs .threw b = ⟨500, some "Internal server error"⟩) ∧
    (respOk st = false →
      loginSjs (.httpResp st tk u) b = ⟨401, some "Invalid credentials"⟩) := by
  refine ⟨fun h => ?_, fun h => ?_, fun uid uem unm upw h hne => ?_,
    ?_, fun h => ?_⟩ <;>
    simp_all [loginP001, loginSjs, jsFalsyS]

/-- C6, witness: the amended theorem applied to a concrete lookup table
holding one failing email, one existing account, and nothing else, and
to a provider responding 503. -/
theorem c6_witness :
    loginP001
        (fun e => if e = "err@x.com" then .err "down"
          else if e = "a@x.com" then .found "u1" "a@x.com" "Alice" "pw"
          else .notFound)
        "sec" 0 ⟨some "err@x.com", some "pw"⟩ =
      .resp ⟨500, some "Database error"⟩ ∧
    loginP001
        (fun e => if e = "err@x.com" then .err "down"
          else if e = "a@x.com" then .found "u1" "a@x.com" "Alice" "pw"
          else .notFound)
        "sec" 0 ⟨some "b@x.com", some "pw"⟩ =
      .resp ⟨401, some "Invalid credentials"⟩ ∧
    loginP001
        (fun e => if e = "err@x.com" then .err "down"
          else if e = "a@x.com" then .found "u1" "a@x.com" "Alice" "pw"
          else .notFound)
        "sec" 0 ⟨some "a@x.com", some "wrong"⟩ =
      .resp ⟨401, some "Invalid credentials"⟩ ∧
    loginSjs (.httpResp 503 none none) ⟨some "a@x.com", some "pw"⟩ =
      ⟨401, some "Invalid credentials"⟩ := by
  refine ⟨?_, ?_, ?_, ?_⟩
  · exact (c6_login_failure_classes _ "sec" 0 _ "err@x.com" "pw" "down" 503 none none
      rfl (by decide) rfl (by decide)).1 (by decide)
  · exact (c6_login_failure_classes _ "sec" 0 _ "b@x.com" "pw" "down" 503 none none
      rfl (by decide) rfl (by decide)).2.1 (by decide)
  · exact (c6_login_failure_classes _ "sec" 0 _ "a@x.com" "wrong" "down" 503 none none
      rfl (by decide) rfl (by decide)).2.2.1 "u1" "a@x.com" "Alice" "pw"
      (by decide) (by decide)
  · exact (c6_login_failure_classes
      (fun e => if e = "err@x.com" then LookupAnswer.err "down"
        else if e = "a@x.com" then LookupAnswer.found "u1" "a@x.com" "Alice" "pw"
        else LookupAnswer.notFound)
      "sec" 0 ⟨some "a@x.com", some "pw"⟩ "a@x.com" "pw" "down" 503 none none
      rfl (by decide) rfl (by decide)).2.2.2.2 (by decide)

/-! ## Claim C4: login token round trip -/

/-- A string always starts with its own prefix. -/
theorem jsStartsWith_append (p s : JStr) : jsStartsWith (p ++ s) p = true := by
  induction p with
  | nil => cases s <;> rfl
  | cons c cs ih => simp [jsStartsWith, ih]

/-- Splitting a separator-free string yields one chunk. -/
theorem jsSplitAux_no_sep (sep : Char) (s : JStr) (acc : JStr) (hs : sep ∉ s) :
    jsSplitAux sep s acc = [acc.reverse ++ s] := by
  induction s generalizing acc with
  | nil => simp [jsSplitAux]
  | cons c cs ih =>
    have h1 : ¬ c = sep := fun h => hs (by simp [h])
    have h2 : sep ∉ cs := fun h => hs (List.mem_cons_of_mem _ h)
    rw [jsSplitAux, if_neg h1, ih _ h2]
    simp

/-- Parsing the header `"Bearer " ++ s` recovers the raw token `s`
whenever the token contains no space (as `split(" ")[1]` does). -/
theorem bearerCheck_append (s : JStr) (hs : ' ' ∉ s) :
    bearerCheck (some (bearerLit ++ s)) = some s := by
  have h1 : jsStartsWith (bearerLit ++ s) bearerLit = true := jsStartsWith_append _ _
  have h2 : jsSplitAux ' ' s [] = [s] := jsSplitAux_no_sep ' ' s [] hs
  simp only [bearerCheck, h1, if_pos]
  simp [bearerLit, jsSplit, jsSplitAux, h2]

/-- C4: in the self-issued flow of `part_001`, a successful login for an
account row mints the 12-hour token carrying that row's `id`, `email`
and `name` claims, and presenting exactly that token back to the
`verifyAuth` middleware at the same instant (wrapped as
`Authorization: Bearer token`) authenticates as a principal whose id is
the id of the account that logged in. `dec` is the token-string
decoding used by `jwt.verify`, and `s` is any space-free wire encoding
of the signed token. -/
theorem c4_token_round_trip
    (lookup : String → LookupAnswer) (secret : String) (now : Int)
    (e p uid uem unm : String) (dec : JStr → Option Jwt) (s : JStr)
    (he : e ≠ "") (hp : p ≠ "")
    (hl : lookup e = .found uid uem unm p)
    (hs : ' ' ∉ s)
    (hdec : dec s = some (jwtSign ⟨none, some uid, some uem, some unm⟩ secret now 43200)) :
    loginP001 lookup secret now ⟨some e, some p⟩ =
      .token (jwtSign ⟨none, some uid, some uem, some unm⟩ secret now 43200) ∧
    verifyAuthP001 dec secret now (some (bearerLit ++ s)) =
      (.ok ⟨some uid, some uem, some unm⟩, []) := by
  constructor
  · simp [loginP001, jsFalsyS, he, hp, hl]
  · have hlt : now < now + 43200 := by omega
    simp [verifyAuthP001, bearerCheck_append s hs, hdec, jwtVerify, jwtSign, hlt]

/-- C4, witness: a concrete account, lookup table, secret, and wire
encoding; logging in and immediately re-presenting the token yields the
same principal id `"u1"`. -/
theorem c4_witness :
    loginP001
        (fun e => if e = "a@x.com" then .found "u1" "a@x.com" "Alice" "pw"
          else .notFound)
        "sec" 0 ⟨some "a@x.com", some "pw"⟩ =
      .token (jwtSign ⟨none, some "u1", some "a@x.com", some "Alice"⟩ "sec" 0 43200) ∧
    verifyAuthP001
        (fun x => if x = ['t', 'o', 'k'] then
            some (jwtSign ⟨none, some "u1", some "a@x.com", some "Alice"⟩ "sec" 0 43200)
          else none)
        "sec" 0 (some (bearerLit ++ ['t', 'o', 'k'])) =
      (.ok ⟨some "u1", some "a@x.com", some "Alice"⟩, []) := by
  exact c4_token_round_trip
    (fun e => if e = "a@x.com" then .found "u1" "a@x.com" "Alice" "pw"
      else .notFound)
    "sec" 0 "a@x.com" "pw" "u1" "a@x.com" "Alice"
    (fun x => if x = ['t', 'o', 'k'] then
        some (jwtSign ⟨none, some "u1", some "a@x.com", some "Alice"⟩ "sec" 0 43200)
      else none)
    ['t', 'o', 'k']
    (by decide) (by decide) (by decide) (by decide) (by decide)

/-! ## The relational store and the research-summary window -/

/-- A row of the `profiles` table. -/
structure ProfileRow where
  id : String
  name : String
  email : String
  password : String
deriving DecidableEq

/-- A row of the `research` table as returned by selects; `created_at`
is the instant in epoch seconds denoted by the stored ISO timestamp. -/
structure StoredResearch where
  id : String
  description : JStr
  file_url : Option String
  user_id : String
  created_at : Int
deriving DecidableEq

/-- The store as the read-only handlers see it: table contents plus
per-query failure switches (an error answer from the collaborator). -/
structure Store where
  profiles : List ProfileRow
  research : List StoredResearch
  profilesErr : Option String
  researchErr : String → Option String

/-- The `dayjs().startOf("day")` computation on an epoch-second
instant. -/
def startOfDay (t : Int) : Int :=
  t - t % 86400

/-- The summary window: `today.subtract(1, "day")` and
`today.add(1, "day")` around `startOf("day")` — the pair
(start of yesterday, start of tomorrow). -/
def summaryWindow (now : Int) : Int × Int :=
  let today := startOfDay now
  (today - 86400, today + 86400)

/-- The `gte(created_at, yesterday)` and `lt(created_at, tomorrow)`
filter pair: half-open membership in the window. -/
def inWindow (w : Int × Int) (x : Int) : Bool :=
  decide (w.1 ≤ x) && decide (x < w.2)

/-- The per-profile summary query
`from("research").eq("user_id", uid).gte(...).lt(...)`. -/
def summaryRecsFor (store : Store) (w : Int × Int) (uid : String) :
    List StoredResearch :=
  store.research.filter (fun r => r.user_id == uid && inWindow w r.created_at)

/-- One element of the summary response. -/
structure SummaryRow where
  id : String
  name : String
  recs : List StoredResearch
deriving DecidableEq

/-- Accumulated observations of the summary loop: effects issued, the
window bounds each per-profile query used, and the rows built (or the
first error thrown). -/
structure LoopOut where
  effects : List Effect
  boundsUsed : List (Int × Int)
  rows : Except String (List SummaryRow)

/-- The `for (const prof of profiles)` loop shared by the summary
handlers; `wAt i` is the window the i-th iteration queries with (the
variants differ only in where the window is computed). An error from a
per-profile query aborts the loop. -/
def summaryLoop (store : Store) (wAt : Nat → Int × Int) :
    Nat → List ProfileRow → LoopOut
  | _, [] => ⟨[], [], .ok []⟩
  | i, p :: ps =>
    let w := wAt i
    match store.researchErr p.id with
    | some e => ⟨[.storeSelect .research], [w], .error e⟩
    | none =>
      let recs := summaryRecsFor store w p.id
      let rest := summaryLoop store wAt (i + 1) ps
      ⟨.storeSelect .research :: rest.effects, w :: rest.boundsUsed,
       match rest.rows with
       | .error e => .error e
       | .ok rows => .ok (⟨p.id, p.name, recs⟩ :: rows)⟩

/-- Everything observable about one summary-handler run. -/
structure SummaryOutcome where
  resp : Response
  effects : List Effect
  summaries : List SummaryRow
  boundsUsed : List (Int × Int)
deriving DecidableEq

/-- The `GET /api/research-summary` handler of `src/server.js` (same
shape in the second `part_000` iteration and `part_002`): `dayjs()` is
read once, before the loop, and every iteration queries with that one
window. `clock` gives the instant returned by each successive `dayjs()`
call. -/
def researchSummarySjs (store : Store) (clock : Nat → Int) : SummaryOutcome :=
  match store.profilesErr with
  | some e => ⟨⟨500, some e⟩, [.storeSelect .profiles], [], []⟩
  | none =>
    let w := summaryWindow (clock 0)
    let out := summaryLoop store (fun _ => w) 0 store.profiles
    match out.rows with
    | .error e => ⟨⟨500, some e⟩, .storeSelect .profiles :: out.effects, [], out.boundsUsed⟩
    | .ok rows => ⟨⟨200, none⟩, .storeSelect .profiles :: out.effects, rows, out.boundsUsed⟩

/-- The `GET /api/research-summary` handler of `src/unnamed/part_001`
(and the first `part_000` iteration): `dayjs()` is read inside the
loop, so the i-th profile queries with the window of the i-th clock
reading. -/
def researchSummaryP001 (store : Store) (clock : Nat → Int) : SummaryOutcome :=
  match store.profilesErr with
  | some e => ⟨⟨500, some e⟩, [.storeSelect .profiles], [], []⟩
  | none =>
    let out := summaryLoop store (fun i => summaryWindow (clock i)) 0 store.profiles
    match out.rows with
    | .error e => ⟨⟨500, some e⟩, .storeSelect .profiles :: out.effects, [], out.boundsUsed⟩
    | .ok rows => ⟨⟨200, none⟩, .storeSelect .profiles :: out.effects, rows, out.boundsUsed⟩

/-! ## Claim C7: window computed once per request -/

/-- C7, counterexample: in the `part_001` iteration cited by the claim,
the window is recomputed per profile inside the loop; with two profiles
and a clock that crosses midnight between the two iterations, the two
per-profile queries use different bounds — the bounds are not computed
once before iterating, and the profiles' queries are not identical. -/
theorem c7_counterexample :
    (researchSummaryP001
        ⟨[⟨"u1", "A", "a@x.com", "p"⟩, ⟨"u2", "B", "b@x.com", "q"⟩], [],
         none, fun _ => none⟩
        (fun i => if i = 0 then (86399 : Int) else 86400)).boundsUsed =
      [(-86400, 86400), (0, 172800)] ∧
    ((-86400 : Int), (86400 : Int)) ≠ ((0 : Int), (172800 : Int)) := by
  exact ⟨by decide, by decide⟩

/-- Every query of a constant-window loop uses that window. -/
theorem summaryLoop_const_bounds (store : Store) (w : Int × Int) :
    ∀ (ps : List ProfileRow) (i : Nat),
      ((summaryLoop store (fun _ => w) i ps).boundsUsed.all
        (fun x => decide (x = w))) = true := by
  intro ps
  induction ps with
  | nil => intro i; rfl
  | cons p ps ih =>
    intro i
    unfold summaryLoop
    cases h : store.researchErr p.id <;> simp [h, ih (i + 1)]

/-- C7, amended: in the `server.js` handler (and the other
single-computation iterations it models) the window bounds are computed
once from the first clock reading, before the loop, and every
per-profile query of the request uses exactly those bounds, whatever
the clock does afterwards; the `part_001`/first-`part_000` iteration
instead recomputes the bounds inside the loop, where they can drift
across a day rollover. -/
theorem c7_window_once (store : Store) (clock : Nat → Int) :
    ((researchSummarySjs store clock).boundsUsed.all
      (fun x => decide (x = summaryWindow (clock 0)))) = true := by
  unfold researchSummarySjs
  split
  · rfl
  · dsimp only
    split <;>
      exact summaryLoop_const_bounds store (summaryWindow (clock 0))
        store.profiles 0

/-! ## Claim C8: the window boundary is half-open -/

/-- C8: for any request instant, a record timestamped exactly at the
start of yesterday is included in its profile's `recs` and a record
timestamped exactly at the start of tomorrow is excluded — the
`gte`/`lt` pair makes the window half-open. -/
theorem c8_window_half_open (t : Int) (p : ProfileRow) (r1 r2 : StoredResearch)
    (h1 : r1.user_id = p.id) (h2 : r2.user_id = p.id)
    (h3 : r1.created_at = startOfDay t - 86400)
    (h4 : r2.created_at = startOfDay t + 86400) :
    (researchSummarySjs ⟨[p], [r1, r2], none, fun _ => none⟩
        (fun _ => t)).summaries = [⟨p.id, p.name, [r1]⟩] := by
  have ha : startOfDay t - 86400 < startOfDay t + 86400 := by omega
  have hb : ¬ (startOfDay t + 86400 < startOfDay t + 86400) := by omega
  simp [researchSummarySjs, summaryLoop, summaryRecsFor, summaryWindow,
    inWindow, List.filter, h1, h2, h3, h4, ha, hb]

/-- C8, witness: the boundary theorem at the concrete instant 100000
(start of day 86400): the record at 0 = start of yesterday is in the
summary, the record at 172800 = start of tomorrow is not. -/
theorem c8_witness :
    (researchSummarySjs
        ⟨[⟨"u1", "A", "a@x.com", "p"⟩],
         [⟨"r1", ['d'], none, "u1", 0⟩, ⟨"r2", ['e'], none, "u1", 172800⟩],
         none, fun _ => none⟩
        (fun _ => 100000)).summaries =
      [⟨"u1", "A", [⟨"r1", ['d'], none, "u1", 0⟩]⟩] := by
  exact c8_window_half_open 100000 ⟨"u1", "A", "a@x.com", "p"⟩
    ⟨"r1", ['d'], none, "u1", 0⟩ ⟨"r2", ['e'], none, "u1", 172800⟩
    rfl rfl (by decide) (by decide)

/-! ## The read-only GET routes of `src/server.js` -/

/-- The `GET /api/anon-key` handler: responds with the configured anon
key and base URL, touching no external collaborator. -/
def anonKeyRoute (anonKey supabaseUrl : String) :
    Response × (String × String) × List Effect :=
  (⟨200, none⟩, (anonKey, supabaseUrl), [])

/-- The `GET /api/members` handler: one select of `profiles`, projected
to (id, name) pairs. -/
def membersRoute (store : Store) :
    Response × List (String × String) × List Effect :=
  match store.profilesErr with
  | some e => (⟨500, some e⟩, [], [.storeSelect .profiles])
  | none =>
    (⟨200, none⟩, store.profiles.map (fun p => (p.id, p.name)),
     [.storeSelect .profiles])

/-- The `GET /api/research` handler: requires a `user_id` query
parameter, then one select of `research` filtered by `user_id` and
ordered by `created_at` descending. -/
def researchListRoute (store : Store) (user_id : Option String) :
    Response × List StoredResearch × List Effect :=
  if jsFalsyS user_id then
    (⟨400, some "user_id query param is required"⟩, [], [])
  else
    let uid := user_id.getD ""
    match store.researchErr uid with
    | some e => (⟨500, some e⟩, [], [.storeSelect .research])
    | none =>
      ((⟨200, none⟩ : Response),
       (store.research.filter (fun r => r.user_id == uid)).insertionSort
         (fun a b => b.created_at ≤ a.created_at),
       [.storeSelect .research])

/-- The `GET /api/me` handler: one select of `profiles` filtered to the
principal's id; `.single()` errors unless exactly one row matches. -/
def meRoute (store : Store) (user : Principal) :
    Response × Option (String × String × String) × List Effect :=
  match store.profilesErr with
  | some e => (⟨500, some e⟩, none, [.storeSelect .profiles])
  | none =>
    match store.profiles.filter (fun p => some p.id == user.id) with
    | [p] => (⟨200, none⟩, some (p.id, p.name, p.email), [.storeSelect .profiles])
    | _ => (⟨500, some "single row expected"⟩, none, [.storeSelect .profiles])

/-! ## Claim C10: GET endpoints perform only reads -/

/-- Whether any effect of a run writes to the store or blob service. -/
def hasWriteEffect (effs : List Effect) : Bool :=
  effs.any Effect.isWriteOp

/-- The summary loop issues only selects, never a write. -/
theorem summaryLoop_no_writes (store : Store) (wAt : Nat → Int × Int) :
    ∀ (ps : List ProfileRow) (i : Nat),
      hasWriteEffect (summaryLoop store wAt i ps).effects = false := by
  intro ps
  induction ps with
  | nil => intro i; rfl
  | cons p ps ih =>
    intro i
    unfold summaryLoop
    cases h : store.researchErr p.id with
    | some e => simp [hasWriteEffect, Effect.isWriteOp]
    | none =>
      have := ih (i + 1)
      simp_all [hasWriteEffect, Effect.isWriteOp]

/-- C10: every GET endpoint of the service — `/api/anon-key`,
`/api/members`, `/api/research-summary`, `/api/research` and `/api/me`
— performs only read operations: whatever the request input, the
clock, and the store's answers, no handler run inserts a row or writes
a storage object. -/
theorem c10_gets_read_only (store : Store) (clock : Nat → Int) (user : Principal)
    (uidq : Option String) (ak su : String) :
    hasWriteEffect (anonKeyRoute ak su).2.2 = false ∧
    hasWriteEffect (membersRoute store).2.2 = false ∧
    hasWriteEffect (researchSummarySjs store clock).effects = false ∧
    hasWriteEffect (researchListRoute store uidq).2.2 = false ∧
    hasWriteEffect (meRoute store user).2.2 = false := by
  refine ⟨rfl, ?_, ?_, ?_, ?_⟩
  · unfold membersRoute
    split <;> rfl
  · unfold researchSummarySjs
    split
    · rfl
    · dsimp only
      have hl := summaryLoop_no_writes store
        (fun _ => summaryWindow (clock 0)) store.profiles 0
      split <;> simp_all [hasWriteEffect, Effect.isWriteOp]
  · unfold researchListRoute
    split
    · rfl
    · dsimp only
      split <;> rfl
  · unfold meRoute
    split
    · rfl
    · split <;> rfl

/-! ## The Upload Handler -/

/-- A multipart file part as multer presents it; the buffer contents are
never inspected by the handlers, so only its length is kept. -/
structure FilePart where
  originalname : JStr
  mimetype : String
  size : Nat
deriving DecidableEq

/-- The MIME allow-list of the `part_002` multer `fileFilter`. -/
def allowedMimeTypes : List String :=
  ["application/pdf", "image/jpeg", "image/png", "image/gif",
   "application/msword",
   "application/vnd.openxmlformats-officedocument.wordprocessingml.document",
   "text/plain"]

/-- Outcome of the multer middleware stage: either the request reaches
the route handler with an optional file, or multer passed an error to
`next(err)` and the route handler is skipped. -/
inductive MulterOutcome where
  | passed (file : Option FilePart)
  | errored
deriving DecidableEq

/-- The `upload.single("file")` middleware of `part_002`: the
`fileFilter` rejects MIME types outside the allow-list with an `Error`,
and the `fileSize` limit of 10 MiB aborts larger files with a
`MulterError`; either way the error goes to `next(err)`. -/
def multerStageP002 (file : Option FilePart) : MulterOutcome :=
  match file with
  | none => .passed none
  | some f =>
    if allowedMimeTypes.contains f.mimetype then
      if f.size > 10 * 1024 * 1024 then .errored
      else .passed (some f)
    else .errored

/-- The response Express's built-in error handler sends for an error no
error middleware catches: status 500 with an HTML body (no JSON
message). The repository registers no error-handling middleware, so
multer errors end here, never in the route handler's own catch. -/
def expressDefaultErrorResp : Response := ⟨500, none⟩

/-- The external answers one upload request can observe. -/
structure UploadWorld where
  uuid : JStr
  storagePutErr : Option String
  publicUrlErr : Option String
  publicUrl : String
  researchInsert : InsertAnswer
  logInsert : InsertAnswer

/-- The action string of the log entry appended after an upload. -/
def uploadLogAction (desc : JStr) : JStr :=
  "Uploaded new research: ".toList ++ desc

/-- The tail shared by both upload handlers once `file_url` is settled:
insert the research row (500 on error) and then append the log entry —
whose answer the code never checks — before responding 201. -/
def uploadInsertTail (w : UploadWorld) (user : Principal) (desc : JStr)
    (file_url : Option String) (effs : List Effect) :
    Response × List Effect :=
  let row : ResearchRow := ⟨desc, file_url, user.id⟩
  match w.researchInsert with
  | .err _ => (⟨500, some "Research insert failed"⟩, effs ++ [.insertResearch row])
  | .ok =>
    (⟨201, some "Upload successful"⟩,
     effs ++ [.insertResearch row, .insertLog user.id (uploadLogAction desc)])

/-- The `POST /api/upload` route-handler body of `part_002` (runs only
when multer passed): trim-check the description, validate the file
extension, write the object, resolve its public URL, then the shared
insert tail. -/
def uploadHandlerP002 (w : UploadWorld) (user : Principal)
    (description : Option JStr) (file : Option FilePart) :
    Response × List Effect :=
  if jsFalsy description || jsTrim (description.getD []) = [] then
    (⟨400, some "Description is required"⟩, [])
  else
    match file with
    | none => uploadInsertTail w user (description.getD []) none []
    | some f =>
      let ext := jsToLower (jsExtname f.originalname)
      if ext = [] then (⟨400, some "File extension missing or invalid"⟩, [])
      else
        let fileName := w.uuid ++ ext
        match w.storagePutErr with
        | some _ =>
          (⟨500, some "File upload failed"⟩,
           [.storagePut "research-files" fileName])
        | none =>
          match w.publicUrlErr with
          | some _ =>
            (⟨500, some "Failed to get public file URL"⟩,
             [.storagePut "research-files" fileName,
              .storageGetPublicUrl "research-files" fileName])
          | none =>
            uploadInsertTail w user (description.getD []) (some w.publicUrl)
              [.storagePut "research-files" fileName,
               .storageGetPublicUrl "research-files" fileName]

/-- The full `POST /api/upload` route of `part_002`: `verifyAuth`, then
multer (whose errors bypass the handler and reach the framework's
default error handler), then the handler body. -/
def uploadRouteP002 (w : UploadWorld) (auth : AuthResult × List Effect)
    (description : Option JStr) (file : Option FilePart) :
    Response × List Effect :=
  match auth with
  | (.reject r, effs) => (r, effs)
  | (.ok user, effs) =>
    match multerStageP002 file with
    | .errored => (expressDefaultErrorResp, effs)
    | .passed f =>
      let (r, hEffs) := uploadHandlerP002 w user description f
      (r, effs ++ hEffs)

/-- The `POST /api/upload` route-handler body of `part_000`: plain
multer with no filter or limits, description and file both required, no
extension check or lower-casing, no error check on the public-URL call,
then the same insert tail. -/
def uploadHandlerP000 (w : UploadWorld) (user : Principal)
    (description : Option JStr) (file : Option FilePart) :
    Response × List Effect :=
  match file, jsFalsy description with
  | none, _ => (⟨400, some "Description and file are required"⟩, [])
  | some _, true => (⟨400, some "Description and file are required"⟩, [])
  | some f, false =>
    let fileName := w.uuid ++ jsExtname f.originalname
    match w.storagePutErr with
    | some _ =>
      (⟨500, some "File upload failed"⟩,
       [.storagePut "research-files" fileName])
    | none =>
      uploadInsertTail w user (description.getD []) (some w.publicUrl)
        [.storagePut "research-files" fileName,
         .storageGetPublicUrl "research-files" fileName]

/-! ## Claim C3: upload step gating -/

/-- C3, counterexample: a world where the storage write, URL resolution
and research insert succeed but the log insert fails; the `part_002`
upload route still answers 201 "Upload successful", because the code
never checks the log insert's answer — so success is reported although
the final log append failed. -/
theorem c3_counterexample :
    uploadRouteP002 ⟨['u'], none, none, "http://x", .ok, .err "log down"⟩
        (.ok ⟨some "u1", none, none⟩, []) (some ['d'])
        (some ⟨['a', '.', 'p', 'd', 'f'], "application/pdf", 5⟩) =
      (⟨201, some "Upload successful"⟩,
       [.storagePut "research-files" ['u', '.', 'p', 'd', 'f'],
        .storageGetPublicUrl "research-files" ['u', '.', 'p', 'd', 'f'],
        .insertResearch ⟨['d'], some "http://x", some "u1"⟩,
        .insertLog (some "u1") (uploadLogAction ['d'])]) ∧
    (⟨['u'], none, none, "http://x", .ok, .err "log down"⟩ : UploadWorld).logInsert =
      .err "log down" := by
  exact ⟨by decide, rfl⟩

/-- C3, amended: in both upload handlers, a storage-write failure is
answered 500 `"File upload failed"` with no research row and no log
entry inserted, and a research-insert failure is answered 500
`"Research insert failed"` with no log entry inserted — each of those
steps gates the next; but once storage write, URL resolution and
research insert succeed, the handler responds 201 `"Upload successful"`
whatever the answer to the final log append is (its result is never
checked), so the 201 does not certify the log step. -/
theorem c3_upload_gating (w : UploadWorld) (user : Principal) (d : Option JStr)
    (f : FilePart) (m : String)
    (hd1 : jsFalsy d = false)
    (hd2 : jsTrim (d.getD []) ≠ [])
    (hx : jsToLower (jsExtname f.originalname) ≠ []) :
    (w.storagePutErr = some m →
      uploadHandlerP002 w user d (some f) =
        (⟨500, some "File upload failed"⟩,
         [.storagePut "research-files"
            (w.uuid ++ jsToLower (jsExtname f.originalname))])) ∧
    (w.storagePutErr = none → w.publicUrlErr = none →
      w.researchInsert = .err m →
      uploadHandlerP002 w user d (some f) =
        (⟨500, some "Research insert failed"⟩,
         [.storagePut "research-files"
            (w.uuid ++ jsToLower (jsExtname f.originalname)),
          .storageGetPublicUrl "research-files"
            (w.uuid ++ jsToLower (jsExtname f.originalname)),
          .insertResearch ⟨d.getD [], some w.publicUrl, user.id⟩])) ∧
    (w.storagePutErr = none → w.publicUrlErr = none →
      w.researchInsert = .ok →
      uploadHandlerP002 w user d (some f) =
        (⟨201, some "Upload successful"⟩,
         [.storagePut "research-files"
            (w.uuid ++ jsToLower (jsExtname f.originalname)),
          .storageGetPublicUrl "research-files"
            (w.uuid ++ jsToLower (jsExtname f.originalname)),
          .insertResearch ⟨d.getD [], some w.publicUrl, user.id⟩,
          .insertLog user.id (uploadLogAction (d.getD []))])) ∧
    (w.storagePutErr = some m →
      uploadHandlerP000 w user d (some f) =
        (⟨500, some "File upload failed"⟩,
         [.storagePut "research-files" (w.uuid ++ jsExtname f.originalname)])) ∧
    (w.storagePutErr = none → w.researchInsert = .err m →
      uploadHandlerP000 w user d (some f) =
        (⟨500, some "Research insert failed"⟩,
         [.storagePut "research-files" (w.uuid ++ jsExtname f.originalname),
          .storageGetPublicUrl "research-files"
            (w.uuid ++ jsExtname f.originalname),
          .insertResearch ⟨d.getD [], some w.publicUrl, user.id⟩])) ∧
    (w.storagePutErr = none → w.researchInsert = .ok →
      uploadHandlerP000 w user d (some f) =
        (⟨201, some "Upload successful"⟩,
         [.storagePut "research-files" (w.uuid ++ jsExtname f.originalname),
          .storageGetPublicUrl "research-files"
            (w.uuid ++ jsExtname f.originalname),
          .insertResearch ⟨d.getD [], some w.publicUrl, user.id⟩,
          .insertLog user.id (uploadLogAction (d.getD []))])) := by
  refine ⟨fun h1 => ?_, fun h1 h2 h3 => ?_, fun h1 h2 h3 => ?_,
    fun h1 => ?_, fun h1 h2 => ?_, fun h1 h2 => ?_⟩ <;>
    simp [uploadHandlerP002, uploadHandlerP000, uploadInsertTail,
      hd1, hd2, hx, h1]
  all_goals simp_all

/-- C3, witness: the amended theorem applied to concrete worlds — one
failing at the storage write, one failing at the research insert, and
one failing only at the log append (which still yields 201). -/
theorem c3_witness :
    uploadHandlerP002 ⟨['u'], some "disk full", none, "http://x", .ok, .ok⟩
        ⟨some "u1", none, none⟩ (some ['d'])
        (some ⟨['a', '.', 'p', 'd', 'f'], "application/pdf", 5⟩) =
      (⟨500, some "File upload failed"⟩,
       [.storagePut "research-files" ['u', '.', 'p', 'd', 'f']]) ∧
    uploadHandlerP002 ⟨['u'], none, none, "http://x", .err "db down", .ok⟩
        ⟨some "u1", none, none⟩ (some ['d'])
        (some ⟨['a', '.', 'p', 'd', 'f'], "application/pdf", 5⟩) =
      (⟨500, some "Research insert failed"⟩,
       [.storagePut "research-files" ['u', '.', 'p', 'd', 'f'],
        .storageGetPublicUrl "research-files" ['u', '.', 'p', 'd', 'f'],
        .insertResearch ⟨['d'], some "http://x", some "u1"⟩]) ∧
    uploadHandlerP002 ⟨['u'], none, none, "http://x", .ok, .err "log down"⟩
        ⟨some "u1", none, none⟩ (some ['d'])
        (some ⟨['a', '.', 'p', 'd', 'f'], "application/pdf", 5⟩) =
      (⟨201, some "Upload successful"⟩,
       [.storagePut "research-files" ['u', '.', 'p', 'd', 'f'],
        .storageGetPublicUrl "research-files" ['u', '.', 'p', 'd', 'f'],
        .insertResearch ⟨['d'], some "http://x", some "u1"⟩,
        .insertLog (some "u1") (uploadLogAction ['d'])]) ∧
    uploadHandlerP000 ⟨['u'], some "disk full", none, "http://x", .ok, .ok⟩
        ⟨some "u1", none, none⟩ (some ['d'])
        (some ⟨['a', '.', 'p', 'd', 'f'], "application/pdf", 5⟩) =
      (⟨500, some "File upload failed"⟩,
       [.storagePut "research-files" ['u', '.', 'p', 'd', 'f']]) := by
  refine ⟨?_, ?_, ?_, ?_⟩
  · exact (c3_upload_gating ⟨['u'], some "disk full", none, "http://x", .ok, .ok⟩
      ⟨some "u1", none, none⟩ (some ['d'])
      ⟨['a', '.', 'p', 'd', 'f'], "application/pdf", 5⟩ "disk full"
      (by decide) (by decide) (by decide)).1 rfl
  · exact (c3_upload_gating ⟨['u'], none, none, "http://x", .err "db down", .ok⟩
      ⟨some "u1", none, none⟩ (some ['d'])
      ⟨['a', '.', 'p', 'd', 'f'], "application/pdf", 5⟩ "db down"
      (by decide) (by decide) (by decide)).2.1 rfl rfl rfl
  · exact (c3_upload_gating ⟨['u'], none, none, "http://x", .ok, .err "log down"⟩
      ⟨some "u1", none, none⟩ (some ['d'])
      ⟨['a', '.', 'p', 'd', 'f'], "application/pdf", 5⟩ "unused"
      (by decide) (by decide) (by decide)).2.2.1 rfl rfl rfl
  · exact (c3_upload_gating ⟨['u'], some "disk full", none, "http://x", .ok, .ok⟩
      ⟨some "u1", none, none⟩ (some ['d'])
      ⟨['a', '.', 'p', 'd', 'f'], "application/pdf", 5⟩ "disk full"
      (by decide) (by decide) (by decide)).2.2.2.1 rfl

/-! ## Claim C5: disallowed MIME types and oversized files -/

/-- C5, code evaluation at the failing inputs: for an authenticated
upload of an `application/zip` file, and likewise of an 11 MiB PDF, the
multer middleware passes its error to `next(err)`; no error middleware
is registered, so the framework's default error handler answers — the
status is 500 with an HTML body, not the 400 the specification
describes (the route handler's branch mapping `MulterError` to 400 is
unreachable), and no storage object is written (the effect list is
empty). -/
theorem c5_code_eval :
    uploadRouteP002 ⟨['u'], none, none, "http://x", .ok, .ok⟩
        (.ok ⟨some "u1", none, none⟩, [])
        (some ['d', 'e', 's', 'c'])
        (some ⟨['d', 'a', 't', 'a', '.', 'z', 'i', 'p'], "application/zip", 100⟩) =
      (⟨500, none⟩, []) ∧
    uploadRouteP002 ⟨['u'], none, none, "http://x", .ok, .ok⟩
        (.ok ⟨some "u1", none, none⟩, [])
        (some ['d', 'e', 's', 'c'])
        (some ⟨['a', '.', 'p', 'd', 'f'], "application/pdf", 11 * 1024 * 1024⟩) =
      (⟨500, none⟩, []) := by
  exact ⟨by decide, by decide⟩
